import Mathlib

/-!
Verification of the CSV format detector of `server.py` (EUC_CSV_MAP_CLIENTSIDE).

The detector `detect_csv_format` reads the first line of a file, classifies
it into one of the labels `eucworld`, `wheellog`, `darknessbot`, `unknown`,
and memoizes the result in a path-keyed cache.  We embed the detector as a
pure function over an explicit file-system oracle (`String → Option String`,
`none` meaning the file cannot be opened or read) and an explicit cache
state, and record how many times the call attempted to open the file.
-/

namespace EucCsvMap

/-- Python `str.isspace` restricted to the ASCII whitespace characters that
`str.strip()` removes: space, tab, newline, carriage return, vertical tab,
form feed. -/
def isPySpace (c : Char) : Bool :=
  c = ' ' || c = '\t' || c = '\n' || c = '\x0d' || c = '\x0b' || c = '\x0c'

/-- Strip `isPySpace` characters from both ends of a character list. -/
def stripChars (l : List Char) : List Char :=
  ((l.dropWhile isPySpace).reverse.dropWhile isPySpace).reverse

/-- Python `str.strip()` with no argument (whitespace stripping). -/
def pyStrip (s : String) : String :=
  String.mk (stripChars s.toList)

/-- Split a character list at every occurrence of the separator `c`.
Matches Python `str.split(sep)` for a one-character separator: the result is
never empty, and `[] ↦ [[]]` so that `"".split(',') == ['']`. -/
def splitOnChar (c : Char) : List Char → List (List Char)
  | [] => [[]]
  | x :: xs =>
    if x = c then
      [] :: splitOnChar c xs
    else
      match splitOnChar c xs with
      | [] => [[x]]
      | r :: rs => (x :: r) :: rs

/-- Python `s.split(c)` for a single-character separator `c`. -/
def pySplit (c : Char) (s : String) : List String :=
  (splitOnChar c s.toList).map String.mk

/-- Python `str.lower()` (ASCII letters; the detector only compares ASCII
column names). -/
def pyLower (s : String) : String :=
  String.mk (s.toList.map Char.toLower)

/-- `f.readline()` on the decoded text `content`, i.e. the text up to the
first line terminator.  The detector immediately strips the result, so we
drop the terminator itself here. -/
def readlineOf (content : String) : String :=
  (pySplit '\n' content).headD ""

/-- `header_line = f.readline().strip()` of `server.py` line 43. -/
def headerLineOf (content : String) : String :=
  pyStrip (readlineOf content)

/-- `columns = [col.strip().lower() for col in header_line.split(',')]`
(`server.py` line 46).  Python builds `set(columns)` from it; set membership
coincides with list membership, so we keep the list. -/
def columnsOf (header_line : String) : List String :=
  (pySplit ',' header_line).map (fun col => pyLower (pyStrip col))

/-- `columns_original = [col.strip() for col in header_line.split(',')]`
(`server.py` line 58), the case-preserving view. -/
def columnsOriginalOf (header_line : String) : List String :=
  (pySplit ',' header_line).map pyStrip

/-- The eucworld rule of `server.py` line 52: the case-insensitive column set
contains both `extra` and `datetime`. -/
def eucworldSig (header_line : String) : Prop :=
  "extra" ∈ columnsOf header_line ∧ "datetime" ∈ columnsOf header_line

/-- The darknessbot rule of `server.py` lines 61-64: the case-sensitive
column set contains `Date`, `Battery level`, `Pitch` and `Total mileage`. -/
def darknessbotSig (header_line : String) : Prop :=
  "Date" ∈ columnsOriginalOf header_line ∧
    "Battery level" ∈ columnsOriginalOf header_line ∧
    "Pitch" ∈ columnsOriginalOf header_line ∧
    "Total mileage" ∈ columnsOriginalOf header_line

/-- The wheellog rule of `server.py` line 69: the case-insensitive column set
contains `date` and `time` and does not contain `extra`. -/
def wheellogSig (header_line : String) : Prop :=
  "date" ∈ columnsOf header_line ∧ "time" ∈ columnsOf header_line ∧
    "extra" ∉ columnsOf header_line

instance (h : String) : Decidable (eucworldSig h) := by
  unfold eucworldSig; infer_instance

instance (h : String) : Decidable (darknessbotSig h) := by
  unfold darknessbotSig; infer_instance

instance (h : String) : Decidable (wheellogSig h) := by
  unfold wheellogSig; infer_instance

/-- The classification branches of `server.py` lines 52-75, in source order:
eucworld, then darknessbot, then wheellog, else unknown. -/
def classify (header_line : String) : String :=
  if eucworldSig header_line then "eucworld"
  else if darknessbotSig header_line then "darknessbot"
  else if wheellogSig header_line then "wheellog"
  else "unknown"

/-- The four labels the detector can produce. -/
def labels : List String :=
  ["eucworld", "wheellog", "darknessbot", "unknown"]

/-- The `format_cache` dict (`server.py` line 29), as an association list:
insertion prepends, lookup takes the most recent binding, matching dict
update semantics for the keys the detector uses. -/
abbrev Cache := List (String × String)

/-- `filepath in format_cache` / `format_cache[filepath]` combined. -/
def Cache.lookup : Cache → String → Option String
  | [], _ => none
  | (k, v) :: rest, p => if k = p then some v else Cache.lookup rest p

/-- Result of one `detect_csv_format` call: the returned label, the cache
state after the call, and how many times the call attempted to open the
file (0 on a cache hit, 1 otherwise — also 1 when the open/read raises). -/
structure DetectResult where
  label : String
  cache : Cache
  opens : Nat
  deriving DecidableEq, Repr

/-- `detect_csv_format` (`server.py` lines 31-79) over a file-system oracle
`fs` (`fs filepath = none` models `open`/read raising an exception, the
`except` branch of lines 77-79; `some content` is the decoded text —
`errors='ignore'` means decoding itself never raises).  On a cache hit the
cached label is returned with no I/O (lines 37-38); on a successful read the
label of `classify` is stored in the cache and returned (lines 42-75); on a
read error `unknown` is returned and the cache is left untouched. -/
def detect_csv_format (fs : String → Option String) (format_cache : Cache)
    (filepath : String) : DetectResult :=
  match format_cache.lookup filepath with
  | some fmt => ⟨fmt, format_cache, 0⟩
  | none =>
    match fs filepath with
    | none => ⟨"unknown", format_cache, 1⟩
    | some content =>
      let label := classify (headerLineOf content)
      ⟨label, (filepath, label) :: format_cache, 1⟩

/-- Every value stored in the cache is one of the four labels. -/
def cacheWF (format_cache : Cache) : Prop :=
  ∀ kv ∈ format_cache, kv.2 ∈ labels

-- Sanity checks against the spec's concrete scenarios (§8).
example : classify "timestamp,Extra,DateTime,speed" = "eucworld" := by decide
example : classify "Date,Pitch,Battery level,Total mileage,Speed" = "darknessbot" := by decide
example : classify "date,time,speed,voltage" = "wheellog" := by decide
example : classify "date,time,extra,voltage" = "unknown" := by decide
example : classify "" = "unknown" := by decide
example : classify "Date,Pitch,battery level,Total mileage" = "unknown" := by decide

/-! ### Helper lemmas about the detector's branches -/

/-- Cache hit (`server.py` lines 37-38): the cached label is returned with no
open attempt and no cache change. -/
theorem detect_hit (fs : String → Option String) (cache : Cache) (path l : String)
    (h : Cache.lookup cache path = some l) :
    detect_csv_format fs cache path = ⟨l, cache, 0⟩ := by
  unfold detect_csv_format
  rw [h]

/-- Cache miss with readable file: the header is classified and the result
stored. -/
theorem detect_miss_read (fs : String → Option String) (cache : Cache) (path content : String)
    (hc : Cache.lookup cache path = none) (hfs : fs path = some content) :
    detect_csv_format fs cache path =
      ⟨classify (headerLineOf content), (path, classify (headerLineOf content)) :: cache, 1⟩ := by
  unfold detect_csv_format
  rw [hc, hfs]

/-- Cache miss with unreadable file (`except` branch, lines 77-79):
`unknown` is returned and nothing is cached. -/
theorem detect_miss_err (fs : String → Option String) (cache : Cache) (path : String)
    (hc : Cache.lookup cache path = none) (hfs : fs path = none) :
    detect_csv_format fs cache path = ⟨"unknown", cache, 1⟩ := by
  unfold detect_csv_format
  rw [hc, hfs]

theorem classify_eucworld (h : String) (he : eucworldSig h) : classify h = "eucworld" := by
  unfold classify
  rw [if_pos he]

theorem classify_darknessbot (h : String) (hne : ¬ eucworldSig h) (hd : darknessbotSig h) :
    classify h = "darknessbot" := by
  unfold classify
  rw [if_neg hne, if_pos hd]

theorem classify_wheellog (h : String) (hne : ¬ eucworldSig h) (hnd : ¬ darknessbotSig h)
    (hw : wheellogSig h) : classify h = "wheellog" := by
  unfold classify
  rw [if_neg hne, if_neg hnd, if_pos hw]

theorem classify_unknown (h : String) (hne : ¬ eucworldSig h) (hnd : ¬ darknessbotSig h)
    (hnw : ¬ wheellogSig h) : classify h = "unknown" := by
  unfold classify
  rw [if_neg hne, if_neg hnd, if_neg hnw]

theorem classify_mem_labels (h : String) : classify h ∈ labels := by
  unfold classify labels
  split_ifs <;> decide

theorem Cache.lookup_mem : ∀ (cache : Cache) (p l : String),
    Cache.lookup cache p = some l → (p, l) ∈ cache
  | [], p, l, h => by simp [Cache.lookup] at h
  | (k, v) :: rest, p, l, h => by
    by_cases hk : k = p
    · subst hk
      simp [Cache.lookup] at h
      simp [h]
    · simp only [Cache.lookup, if_neg hk] at h
      exact List.mem_cons_of_mem _ (Cache.lookup_mem rest p l h)

/-! ### Claims -/

/-- C1: the claim says a header with the four exact-case darknessbot tokens is
classified `darknessbot` even when `extra`/`datetime` appear in another case;
but the eucworld rule runs first on the lowercased columns, so such a header
is classified `eucworld`. -/
theorem C1_counterexample :
    darknessbotSig (headerLineOf "Date,Battery level,Pitch,Total mileage,Extra,DateTime") ∧
      (detect_csv_format
        (fun _ => some "Date,Battery level,Pitch,Total mileage,Extra,DateTime")
        [] "log.csv").label = "eucworld" ∧
      (detect_csv_format
        (fun _ => some "Date,Battery level,Pitch,Total mileage,Extra,DateTime")
        [] "log.csv").label ≠ "darknessbot" := by
  decide

/-- C1 (amended): for every readable, uncached file whose header has the four
exact-case darknessbot tokens and whose lowercased columns do not contain both
`extra` and `datetime`, detect returns `darknessbot`; and a header with `date`
instead of `Date` does not classify as darknessbot. -/
theorem C1_darknessbot :
    (∀ (fs : String → Option String) (cache : Cache) (path content : String),
        Cache.lookup cache path = none → fs path = some content →
        darknessbotSig (headerLineOf content) → ¬ eucworldSig (headerLineOf content) →
        (detect_csv_format fs cache path).label = "darknessbot") ∧
      (detect_csv_format (fun _ => some "date,Battery level,Pitch,Total mileage")
        [] "lower.csv").label ≠ "darknessbot" := by
  constructor
  · intro fs cache path content hc hfs hd hne
    rw [detect_miss_read fs cache path content hc hfs]
    exact classify_darknessbot _ hne hd
  · decide

/-- C1 witness: a plain darknessbot header classifies as `darknessbot`. -/
theorem C1_darknessbot_witness :
    (detect_csv_format (fun _ => some "Date,Pitch,Battery level,Total mileage,Speed")
      [] "db.csv").label = "darknessbot" :=
  C1_darknessbot.1 (fun _ => some "Date,Pitch,Battery level,Total mileage,Speed")
    [] "db.csv" "Date,Pitch,Battery level,Total mileage,Speed" rfl rfl
    (by decide) (by decide)

/-- C2: the claim says any header with lowercase `date` and `time` and no
`extra` is classified `wheellog`; but the darknessbot rule runs first, so a
header that additionally carries the exact-case darknessbot signature is
classified `darknessbot`. -/
theorem C2_counterexample :
    wheellogSig (headerLineOf "date,time,Date,Battery level,Pitch,Total mileage") ∧
      (detect_csv_format
        (fun _ => some "date,time,Date,Battery level,Pitch,Total mileage")
        [] "wl.csv").label = "darknessbot" ∧
      (detect_csv_format
        (fun _ => some "date,time,Date,Battery level,Pitch,Total mileage")
        [] "wl.csv").label ≠ "wheellog" := by
  decide

/-- C2 (amended): for every readable, uncached file whose lowercased columns
contain `date` and `time` but not `extra`, and whose header does not match the
exact-case darknessbot signature, detect returns `wheellog`. -/
theorem C2_wheellog (fs : String → Option String) (cache : Cache) (path content : String)
    (hc : Cache.lookup cache path = none) (hfs : fs path = some content)
    (hw : wheellogSig (headerLineOf content))
    (hnd : ¬ darknessbotSig (headerLineOf content)) :
    (detect_csv_format fs cache path).label = "wheellog" := by
  have hne : ¬ eucworldSig (headerLineOf content) := fun he => hw.2.2 he.1
  rw [detect_miss_read fs cache path content hc hfs]
  exact classify_wheellog _ hne hnd hw

/-- C2 witness: the spec's concrete wheellog header. -/
theorem C2_wheellog_witness :
    (detect_csv_format (fun _ => some "date,time,speed,voltage")
      [] "wheel.csv").label = "wheellog" :=
  C2_wheellog (fun _ => some "date,time,speed,voltage") [] "wheel.csv"
    "date,time,speed,voltage" rfl rfl (by decide) (by decide)

/-- C3: for every readable, uncached file whose lowercased columns contain
both `extra` and `datetime`, detect returns `eucworld`, whatever else the
header contains. -/
theorem C3_eucworld (fs : String → Option String) (cache : Cache) (path content : String)
    (hc : Cache.lookup cache path = none) (hfs : fs path = some content)
    (he : eucworldSig (headerLineOf content)) :
    (detect_csv_format fs cache path).label = "eucworld" := by
  rw [detect_miss_read fs cache path content hc hfs]
  exact classify_eucworld _ he

/-- C3 witness: the spec's concrete eucworld header
`timestamp,Extra,DateTime,speed`. -/
theorem C3_eucworld_witness :
    (detect_csv_format (fun _ => some "timestamp,Extra,DateTime,speed")
      [] "euc.csv").label = "eucworld" :=
  C3_eucworld (fun _ => some "timestamp,Extra,DateTime,speed") [] "euc.csv"
    "timestamp,Extra,DateTime,speed" rfl rfl (by decide)

/-- C4: the claim says the second of two successive `detect` calls never
performs file I/O; but after a failed read nothing is cached, so the second
call on an unreadable path attempts to open the file again (`opens = 1`). -/
theorem C4_counterexample :
    (detect_csv_format (fun _ => none) [] "missing.csv").label = "unknown" ∧
      (detect_csv_format (fun _ => none)
        (detect_csv_format (fun _ => none) [] "missing.csv").cache "missing.csv").opens = 1 := by
  decide

/-- C4 (amended): two successive `detect` calls on the same path return the
identical label; and the second call performs no file I/O provided the path
was already cached or the file was readable on the first call. -/
theorem C4_idempotent (fs : String → Option String) (cache : Cache) (path : String) :
    (detect_csv_format fs (detect_csv_format fs cache path).cache path).label =
        (detect_csv_format fs cache path).label ∧
      ((Cache.lookup cache path).isSome ∨ (fs path).isSome →
        (detect_csv_format fs (detect_csv_format fs cache path).cache path).opens = 0) := by
  cases hc : Cache.lookup cache path with
  | some l =>
    simp [detect_hit fs cache path l hc]
  | none =>
    cases hf : fs path with
    | none =>
      simp [detect_miss_err fs cache path hc hf, hc, hf]
    | some content =>
      have h2 : Cache.lookup ((path, classify (headerLineOf content)) :: cache) path =
          some (classify (headerLineOf content)) := by
        simp [Cache.lookup]
      simp [detect_miss_read fs cache path content hc hf,
        detect_hit fs ((path, classify (headerLineOf content)) :: cache) path
          (classify (headerLineOf content)) h2]

/-- C4 witness: on a readable file, the repeated call returns the same label
with zero opens. -/
theorem C4_idempotent_witness :
    (detect_csv_format (fun _ => some "date,time,gps")
        (detect_csv_format (fun _ => some "date,time,gps") [] "ride.csv").cache
        "ride.csv").label =
      (detect_csv_format (fun _ => some "date,time,gps") [] "ride.csv").label ∧
    (detect_csv_format (fun _ => some "date,time,gps")
        (detect_csv_format (fun _ => some "date,time,gps") [] "ride.csv").cache
        "ride.csv").opens = 0 :=
  ⟨(C4_idempotent (fun _ => some "date,time,gps") [] "ride.csv").1,
    (C4_idempotent (fun _ => some "date,time,gps") [] "ride.csv").2 (by decide)⟩

/-- C5: the claim says every call, including one on an unreadable file,
leaves a cache entry for the path; but the `except` branch returns `unknown`
without writing to the cache. -/
theorem C5_counterexample :
    (detect_csv_format (fun _ => none) [] "gone.csv").label = "unknown" ∧
      Cache.lookup (detect_csv_format (fun _ => none) [] "gone.csv").cache "gone.csv" = none := by
  decide

/-- C5 (amended): after a call on a path that was already cached or whose
file was readable, the cache maps the path to the returned label; an
unreadable, uncached path gets no cache entry. -/
theorem C5_cache_stores (fs : String → Option String) (cache : Cache) (path : String)
    (h : (Cache.lookup cache path).isSome ∨ (fs path).isSome) :
    Cache.lookup (detect_csv_format fs cache path).cache path =
      some (detect_csv_format fs cache path).label := by
  cases hc : Cache.lookup cache path with
  | some l =>
    simp [detect_hit fs cache path l hc, hc]
  | none =>
    cases hf : fs path with
    | none =>
      rw [hc, hf] at h
      simp at h
    | some content =>
      simp [detect_miss_read fs cache path content hc hf, Cache.lookup]

/-- C5 witness: a readable file's label lands in the cache. -/
theorem C5_cache_stores_witness :
    Cache.lookup (detect_csv_format (fun _ => some "Extra,datetime") [] "e.csv").cache "e.csv" =
      some (detect_csv_format (fun _ => some "Extra,datetime") [] "e.csv").label :=
  C5_cache_stores (fun _ => some "Extra,datetime") [] "e.csv" (by decide)

/-- C6: once a path is cached, every later call returns exactly the cached
label, attempts no open, and leaves the cache unchanged — for every
file-system state, i.e. regardless of any mutation of the file on disk. -/
theorem C6_cached_stable (fs : String → Option String) (cache : Cache) (path l : String)
    (h : Cache.lookup cache path = some l) :
    (detect_csv_format fs cache path).label = l ∧
      (detect_csv_format fs cache path).opens = 0 ∧
      (detect_csv_format fs cache path).cache = cache := by
  simp [detect_hit fs cache path l h]

/-- C6 witness: a cached `wheellog` path keeps its label even though the file
on disk now holds an eucworld header. -/
theorem C6_cached_stable_witness :
    (detect_csv_format (fun _ => some "Extra,DateTime")
        [("old.csv", "wheellog")] "old.csv").label = "wheellog" ∧
      (detect_csv_format (fun _ => some "Extra,DateTime")
        [("old.csv", "wheellog")] "old.csv").opens = 0 ∧
      (detect_csv_format (fun _ => some "Extra,DateTime")
        [("old.csv", "wheellog")] "old.csv").cache = [("old.csv", "wheellog")] :=
  C6_cached_stable (fun _ => some "Extra,DateTime") [("old.csv", "wheellog")]
    "old.csv" "wheellog" (by decide)

/-- C7: starting from a well-formed cache (only detector-written labels),
`detect` always returns one of the four labels — unreadable files included —
and preserves cache well-formedness, so no error value ever reaches the
caller. -/
theorem C7_total (fs : String → Option String) (cache : Cache) (path : String)
    (hwf : cacheWF cache) :
    (detect_csv_format fs cache path).label ∈ labels ∧
      cacheWF (detect_csv_format fs cache path).cache := by
  cases hc : Cache.lookup cache path with
  | some l =>
    have hl : l ∈ labels := hwf (path, l) (Cache.lookup_mem cache path l hc)
    simp only [detect_hit fs cache path l hc]
    exact ⟨hl, hwf⟩
  | none =>
    cases hf : fs path with
    | none =>
      simp only [detect_miss_err fs cache path hc hf]
      exact ⟨by decide, hwf⟩
    | some content =>
      simp only [detect_miss_read fs cache path content hc hf]
      refine ⟨classify_mem_labels _, ?_⟩
      intro kv hkv
      rcases List.mem_cons.mp hkv with h | h
      · rw [h]
        exact classify_mem_labels _
      · exact hwf kv h

/-- C7 witness: on a missing file with an empty cache, the result is a label
and the cache stays well-formed. -/
theorem C7_total_witness :
    (detect_csv_format (fun _ => none) [] "nope.csv").label ∈ labels ∧
      cacheWF (detect_csv_format (fun _ => none) [] "nope.csv").cache :=
  C7_total (fun _ => none) [] "nope.csv" (by intro kv hkv; cases hkv)

/-- C8: the claim says a capitalized `Date` field does not satisfy the
wheellog rule's case-insensitive `date` check; but the columns are lowercased
before that check, so the header `Date,time,speed` classifies as `wheellog`. -/
theorem C8_counterexample :
    "Date" ∈ columnsOriginalOf (headerLineOf "Date,time,speed") ∧
      "date" ∈ columnsOf (headerLineOf "Date,time,speed") ∧
      (detect_csv_format (fun _ => some "Date,time,speed") [] "cap.csv").label = "wheellog" := by
  decide

/-- C8 (amended): `Date` does satisfy the case-insensitive `date` check, so
`Date,time,speed` classifies as `wheellog`; the header
`Date,Pitch,battery level,Total mileage` still classifies as `unknown`,
because `time` is absent and the exact-case darknessbot check fails on the
lowercase `battery level`. -/
theorem C8_case_boundary :
    (detect_csv_format (fun _ => some "Date,time,speed") [] "c1.csv").label = "wheellog" ∧
      (detect_csv_format (fun _ => some "Date,Pitch,battery level,Total mileage")
        [] "c2.csv").label = "unknown" := by
  decide

/-- C9: a readable, uncached file whose header matches none of the three rule
signatures classifies as `unknown`; in particular the empty file and the
header `date,time,extra,voltage` do. -/
theorem C9_unknown :
    (∀ (fs : String → Option String) (cache : Cache) (path content : String),
        Cache.lookup cache path = none → fs path = some content →
        ¬ eucworldSig (headerLineOf content) → ¬ darknessbotSig (headerLineOf content) →
        ¬ wheellogSig (headerLineOf content) →
        (detect_csv_format fs cache path).label = "unknown") ∧
      (detect_csv_format (fun _ => some "") [] "empty.csv").label = "unknown" ∧
      (detect_csv_format (fun _ => some "date,time,extra,voltage") [] "mix.csv").label = "unknown" := by
  refine ⟨?_, by decide, by decide⟩
  intro fs cache path content hc hfs h1 h2 h3
  rw [detect_miss_read fs cache path content hc hfs]
  exact classify_unknown _ h1 h2 h3

/-- C9 witness: an unrelated header classifies as `unknown`. -/
theorem C9_unknown_witness :
    (detect_csv_format (fun _ => some "foo,bar") [] "u.csv").label = "unknown" :=
  C9_unknown.1 (fun _ => some "foo,bar") [] "u.csv" "foo,bar" rfl rfl
    (by decide) (by decide) (by decide)

/-- C10: for uncached paths, the label depends only on the file's first line:
two uncached paths (under possibly different file systems and caches) whose
files have identical first lines classify identically, whatever the rest of
each file holds. -/
theorem C10_content_determines (fs1 fs2 : String → Option String)
    (cache1 cache2 : Cache) (p1 p2 c1 c2 : String)
    (h1 : Cache.lookup cache1 p1 = none) (h2 : Cache.lookup cache2 p2 = none)
    (hf1 : fs1 p1 = some c1) (hf2 : fs2 p2 = some c2)
    (hline : readlineOf c1 = readlineOf c2) :
    (detect_csv_format fs1 cache1 p1).label = (detect_csv_format fs2 cache2 p2).label := by
  rw [detect_miss_read fs1 cache1 p1 c1 h1 hf1,
    detect_miss_read fs2 cache2 p2 c2 h2 hf2]
  show classify (headerLineOf c1) = classify (headerLineOf c2)
  unfold headerLineOf
  rw [hline]

/-- C10 witness: two distinct paths whose files share the header line but
have different data rows get the same label. -/
theorem C10_content_determines_witness :
    (detect_csv_format (fun _ => some "date,time,gps\n1,2,3") [] "a/left.csv").label =
      (detect_csv_format
        (fun p => if p = "b/right.csv" then some "date,time,gps\n9,9,9\n8,8,8" else none)
        [] "b/right.csv").label :=
  C10_content_determines (fun _ => some "date,time,gps\n1,2,3")
    (fun p => if p = "b/right.csv" then some "date,time,gps\n9,9,9\n8,8,8" else none)
    [] [] "a/left.csv" "b/right.csv" "date,time,gps\n1,2,3" "date,time,gps\n9,9,9\n8,8,8"
    rfl rfl rfl (by decide) (by decide)

end EucCsvMap
